import Mathlib

/-!
Verification development for the simulation core of a two-paddle
ball-bounce arcade game (`src/main.rs`).

The embedding translates the per-tick systems of the source into pure
Lean functions: `f32` quantities are idealized as real numbers, scores
are naturals, and the per-tick mutation of each system becomes explicit
state passing.  Function and constant names follow the source.
-/

namespace Pong

noncomputable section

/-- Planar vector, modelling glam `Vec2` (`f32` components idealized as `ℝ`). -/
structure Vec2 where
  x : ℝ
  y : ℝ

/-- glam `Vec2::length_squared`: `x * x + y * y`. -/
def Vec2.lengthSq (v : Vec2) : ℝ := v.x * v.x + v.y * v.y

/-- glam `Vec2::length`: square root of the squared length. -/
def Vec2.length (v : Vec2) : ℝ := Real.sqrt v.lengthSq

/-- glam `Vec2::clamp_length_max`: if the squared length exceeds
`maxLen * maxLen`, rescale to length `maxLen` preserving direction. -/
def Vec2.clamp_length_max (v : Vec2) (maxLen : ℝ) : Vec2 :=
  if v.lengthSq > maxLen * maxLen then
    ⟨maxLen * (v.x / Real.sqrt v.lengthSq), maxLen * (v.y / Real.sqrt v.lengthSq)⟩
  else v

/-- glam `Vec2::clamp_length_min`: if the squared length is below
`minLen * minLen`, rescale to length `minLen` preserving direction. -/
def Vec2.clamp_length_min (v : Vec2) (minLen : ℝ) : Vec2 :=
  if v.lengthSq < minLen * minLen then
    ⟨minLen * (v.x / Real.sqrt v.lengthSq), minLen * (v.y / Real.sqrt v.lengthSq)⟩
  else v

-- Constants from `main.rs`.

def PADDLE_SIZE : Vec2 := ⟨10, 90⟩
def BALL_SIZE : Vec2 := ⟨10, 10⟩
def BALL_STARTING_SPEED : ℝ := 400
def BALL_DELTA_SPEED : ℝ := 10
def AI_STARTING_MAX_SPEED : ℝ := 500
def FRAME_SIZE : Vec2 := ⟨640, 480⟩
def WALL_THICKNESS : ℝ := 6
def LEFT_WALL : ℝ := -FRAME_SIZE.x / 2
def RIGHT_WALL : ℝ := FRAME_SIZE.x / 2
def BOTTOM_WALL : ℝ := -FRAME_SIZE.y / 2 + WALL_THICKNESS
def TOP_WALL : ℝ := FRAME_SIZE.y / 2 - WALL_THICKNESS
def WIN_CONDITIONS : ℕ := 3
def START_DELAY : ℝ := 3
def NEXT_SET_DELAY : ℝ := 1

/-- Horizontal collision outcome (`enum CollisionH`). -/
inductive CollisionH where
  | Left
  | Right
deriving DecidableEq

/-- Vertical collision outcome (`enum CollisionV`). -/
inductive CollisionV where
  | Top
  | Bottom
deriving DecidableEq

/-- Gameplay phase (`enum GameplayState`). -/
inductive GameplayState where
  | Startup
  | Instructions
  | Start
  | Active
  | NextSet
  | GameOver
deriving DecidableEq

/-- bevy `Aabb2d`: an axis-aligned box stored as min/max corners. -/
structure Aabb2d where
  min : Vec2
  max : Vec2

/-- bevy `Aabb2d::new(center, half_size)`. -/
def Aabb2d.new (center halfSize : Vec2) : Aabb2d :=
  ⟨⟨center.x - halfSize.x, center.y - halfSize.y⟩,
   ⟨center.x + halfSize.x, center.y + halfSize.y⟩⟩

/-- bevy `BoundingVolume::center`: `(min + max) / 2`. -/
def Aabb2d.center (b : Aabb2d) : Vec2 :=
  ⟨(b.min.x + b.max.x) / 2, (b.min.y + b.max.y) / 2⟩

/-- bevy `BoundingVolume::half_size`: `(max - min) / 2`. -/
def Aabb2d.halfSize (b : Aabb2d) : Vec2 :=
  ⟨(b.max.x - b.min.x) / 2, (b.max.y - b.min.y) / 2⟩

/-- bevy `IntersectsVolume::intersects` for two `Aabb2d` (inclusive bounds). -/
def Aabb2d.intersects (a b : Aabb2d) : Prop :=
  a.min.x ≤ b.max.x ∧ b.min.x ≤ a.max.x ∧ a.min.y ≤ b.max.y ∧ b.min.y ≤ a.max.y

instance (a b : Aabb2d) : Decidable (Aabb2d.intersects a b) := by
  unfold Aabb2d.intersects; infer_instance

/-- bevy `Aabb2d::closest_point`: clamp the point into the box, componentwise. -/
def Aabb2d.closestPoint (b : Aabb2d) (p : Vec2) : Vec2 :=
  ⟨Min.min b.max.x (Max.max b.min.x p.x), Min.min b.max.y (Max.max b.min.y p.y)⟩

/-- `fn collide_with_walls`: compare the ball's leading edges with the four
fixed wall coordinates; the left assignment happens before the right one
(the right test overwrites), likewise bottom before top. -/
def collide_with_walls (ball : Aabb2d) : Option CollisionH × Option CollisionV :=
  let h0 : Option CollisionH := none
  let h1 : Option CollisionH :=
    if ball.center.x - ball.halfSize.x ≤ LEFT_WALL then some CollisionH.Left else h0
  let h2 : Option CollisionH :=
    if RIGHT_WALL ≤ ball.center.x + ball.halfSize.x then some CollisionH.Right else h1
  let v0 : Option CollisionV := none
  let v1 : Option CollisionV :=
    if ball.center.y - ball.halfSize.y ≤ BOTTOM_WALL then some CollisionV.Bottom else v0
  let v2 : Option CollisionV :=
    if TOP_WALL ≤ ball.center.y + ball.halfSize.y then some CollisionV.Top else v1
  (h2, v2)

/-- `fn collide_with_collider`: no overlap means no collision; otherwise the
offset of the ball center from the closest point on the collider selects a
single-axis outcome, horizontal only under strict dominance `|ox| > |oy|`. -/
def collide_with_collider (ball collider : Aabb2d) : Option CollisionH × Option CollisionV :=
  if Aabb2d.intersects ball collider then
    let closest := collider.closestPoint ball.center
    let ox := ball.center.x - closest.x
    let oy := ball.center.y - closest.y
    if |ox| > |oy| then
      if ox < 0 then (some CollisionH.Right, none) else (some CollisionH.Left, none)
    else if oy > 0 then (none, some CollisionV.Bottom)
    else (none, some CollisionV.Top)
  else (none, none)

/-- `struct Scoreboard`. -/
structure Scoreboard where
  score_left : ℕ
  score_right : ℕ
deriving DecidableEq

/-- The `match maybe_collision.0` block of `check_ball_collisions`: the side
opposite the crossed wall scores. -/
def process_scoreboard (wallH : Option CollisionH) (sb : Scoreboard) : Scoreboard :=
  match wallH with
  | some CollisionH.Left => { sb with score_right := sb.score_right + 1 }
  | some CollisionH.Right => { sb with score_left := sb.score_left + 1 }
  | none => sb

/-- The merge step of the collider loop in `check_ball_collisions`: a `some`
outcome from a collider overwrites the accumulated outcome on that axis. -/
def merge_collision (acc c : Option CollisionH × Option CollisionV) :
    Option CollisionH × Option CollisionV :=
  (if c.1.isSome then c.1 else acc.1, if c.2.isSome then c.2 else acc.2)

/-- Horizontal reflection of `check_ball_collisions`: flip `velocity.x` only
when the ball moves toward the hit side. -/
def reflect_x (collisionH : Option CollisionH) (vx : ℝ) : ℝ :=
  match collisionH with
  | some CollisionH.Left => if vx < 0 then -vx else vx
  | some CollisionH.Right => if vx > 0 then -vx else vx
  | none => vx

/-- Vertical reflection of `check_ball_collisions`: flip `velocity.y` only
when the ball moves toward the hit side. -/
def reflect_y (collisionV : Option CollisionV) (vy : ℝ) : ℝ :=
  match collisionV with
  | some CollisionV.Top => if vy > 0 then -vy else vy
  | some CollisionV.Bottom => if vy < 0 then -vy else vy
  | none => vy

/-- The ball's collision box, `Aabb2d::new(translation.xy(), BALL_SIZE / 2)`. -/
def ball_aabb (pos : Vec2) : Aabb2d :=
  Aabb2d.new pos ⟨BALL_SIZE.x / 2, BALL_SIZE.y / 2⟩

/-- A paddle's collision box, `Aabb2d::new(translation.xy(), PADDLE_SIZE * scale / 2)`
with the spawned scale of one. -/
def paddle_aabb (center : Vec2) : Aabb2d :=
  Aabb2d.new center ⟨PADDLE_SIZE.x / 2, PADDLE_SIZE.y / 2⟩

/-- Result of one run of `check_ball_collisions`: the ball velocity after
reflection, the scoreboard after the wall-crossing increment, the horizontal
wall outcome (which drives the state switch), the merged per-axis outcomes,
and the number of `CollisionEvent`s sent this tick. -/
structure CollisionResult where
  velocity : Vec2
  scoreboard : Scoreboard
  wallH : Option CollisionH
  collisionH : Option CollisionH
  collisionV : Option CollisionV
  eventCount : ℕ

/-- `fn check_ball_collisions`: wall test, scoring from the horizontal wall
outcome, collider merge over the paddle list, reflection, and the coalesced
collision event (`send_default` runs once when either axis has an outcome). -/
def check_ball_collisions (pos vel : Vec2) (sb : Scoreboard) (colliders : List Vec2) :
    CollisionResult :=
  let wall := collide_with_walls (ball_aabb pos)
  let merged := colliders.foldl
    (fun acc c => merge_collision acc (collide_with_collider (ball_aabb pos) (paddle_aabb c)))
    wall
  { velocity := ⟨reflect_x merged.1 vel.x, reflect_y merged.2 vel.y⟩
    scoreboard := process_scoreboard wall.1 sb
    wallH := wall.1
    collisionH := merged.1
    collisionV := merged.2
    eventCount := if merged.1.isSome || merged.2.isSome then 1 else 0 }

/-- `fn on_collision_actions`: early return when no event was sent; otherwise
raise the ball's max speed by `BALL_DELTA_SPEED` and re-clamp the velocity to
a minimum of the new max speed. -/
def on_collision_actions (eventCount : ℕ) (vel : Vec2) (max_speed : ℝ) : Vec2 × ℝ :=
  if eventCount = 0 then (vel, max_speed)
  else
    (Vec2.clamp_length_min vel (max_speed + BALL_DELTA_SPEED), max_speed + BALL_DELTA_SPEED)

/-- The chained `check_ball_collisions` then `on_collision_actions` pair that
runs during the `Active` phase: returns the ball velocity and max speed after
both systems, and the scoreboard after scoring. -/
def active_collision_tick (pos vel : Vec2) (max_speed : ℝ) (sb : Scoreboard)
    (colliders : List Vec2) : Vec2 × ℝ × Scoreboard :=
  let out := check_ball_collisions pos vel sb colliders
  let acted := on_collision_actions out.eventCount out.velocity max_speed
  (acted.1, acted.2, out.scoreboard)

/-- `fn ai_control`: early return on a zero tick, otherwise set the paddle's
y velocity to the gap to the ball divided by the tick duration. -/
def ai_control (dt ball_y paddle_y : ℝ) (vel : Vec2) : Vec2 :=
  if dt = 0 then vel else ⟨vel.x, (ball_y - paddle_y) / dt⟩

/-- `fn limit_velocity` for one entity: clamp the velocity's length to at
most the entity's max speed. -/
def limit_velocity (vel : Vec2) (max_speed : ℝ) : Vec2 :=
  Vec2.clamp_length_max vel max_speed

/-- `fn apply_velocity` for one entity: Euler position integration. -/
def apply_velocity (pos vel : Vec2) (dt : ℝ) : Vec2 :=
  ⟨pos.x + vel.x * dt, pos.y + vel.y * dt⟩

/-- The AI paddle's portion of one tick in system order:
`ai_control`, then `limit_velocity`, then `apply_velocity`.
Returns the new position and the clamped velocity. -/
def ai_paddle_tick (dt ball_y : ℝ) (pos vel : Vec2) (max_speed : ℝ) : Vec2 × Vec2 :=
  let v1 := ai_control dt ball_y pos.y vel
  let v2 := limit_velocity v1 max_speed
  (apply_velocity pos v2 dt, v2)

/-- The local `const BOUND` of `fn bound_paddle`: `TOP_WALL - PADDLE_SIZE.y / 2`. -/
def PADDLE_BOUND : ℝ := TOP_WALL - PADDLE_SIZE.y / 2

/-- `fn bound_paddle` for one paddle: clamp the y position into
`[-PADDLE_BOUND, PADDLE_BOUND]` (Rust `f32::clamp`); when the clamp changed
the value, also zero the y velocity. -/
def bound_paddle (pos vel : Vec2) : Vec2 × Vec2 :=
  let translation_goal_y := min PADDLE_BOUND (max (-PADDLE_BOUND) pos.y)
  if pos.y = translation_goal_y then (pos, vel)
  else (⟨pos.x, translation_goal_y⟩, ⟨vel.x, 0⟩)

/-- bevy `Timer` restricted to `TimerMode::Once` as used by `StateTimer`. -/
structure Timer where
  duration : ℝ
  elapsed : ℝ
  finished : Bool

/-- `fn reset_timer`: `set_duration` followed by `reset` (elapsed back to
zero, finished flag cleared). -/
def reset_timer (_t : Timer) (d : ℝ) : Timer := ⟨d, 0, false⟩

/-- bevy `Timer::tick` for a once-mode timer, returning the ticked timer and
`just_finished`: an already-finished timer reports nothing; otherwise elapsed
grows by the delta (capped at the duration) and `just_finished` holds exactly
when the duration is reached this tick. -/
def tick_timer (t : Timer) (delta : ℝ) : Timer × Bool :=
  if t.finished then (t, false)
  else if t.duration ≤ t.elapsed + delta then (⟨t.duration, t.duration, true⟩, true)
  else (⟨t.duration, t.elapsed + delta, false⟩, false)

/-- `fn check_win_conditions`: `GameOver` when either score reached
`WIN_CONDITIONS`, else `NextSet`. -/
def check_win_conditions (sb : Scoreboard) : GameplayState :=
  if WIN_CONDITIONS ≤ sb.score_left ∨ WIN_CONDITIONS ≤ sb.score_right then
    GameplayState.GameOver
  else GameplayState.NextSet

/-- The `let state = match current_game_state` block of
`fn switch_to_next_state`. -/
def next_phase (current : GameplayState) (sb : Scoreboard) : GameplayState :=
  match current with
  | GameplayState.Startup => GameplayState.Instructions
  | GameplayState.Instructions => GameplayState.Start
  | GameplayState.Start => GameplayState.Active
  | GameplayState.Active => check_win_conditions sb
  | GameplayState.NextSet => GameplayState.Active
  | GameplayState.GameOver => GameplayState.Start

/-- `fn switch_to_next_state`: compute the next phase from the current phase
and the scoreboard, arming the shared timer when the next phase is timed.
The timer is read only to be re-armed; it never gates the transition. -/
def switch_to_next_state (current : GameplayState) (sb : Scoreboard) (t : Timer) :
    GameplayState × Timer :=
  match next_phase current sb with
  | GameplayState.Start => (GameplayState.Start, reset_timer t START_DELAY)
  | GameplayState.NextSet => (GameplayState.NextSet, reset_timer t NEXT_SET_DELAY)
  | s => (s, t)

/-- One `Update` tick of the `NextSet` phase: `tick_timer` runs and invokes
`switch_to_next_state` exactly when the timer just finished. -/
def next_set_tick (t : Timer) (delta : ℝ) (sb : Scoreboard) : GameplayState × Timer :=
  let r := tick_timer t delta
  if r.2 then switch_to_next_state GameplayState.NextSet sb r.1
  else (GameplayState.NextSet, r.1)

/-- The phase after one `Active` tick: `check_ball_collisions` invokes
`switch_to_next_state` (through the queued one-shot system) exactly when the
wall test reported a horizontal outcome; the switch then reads the scoreboard
already updated by the same tick's increment. -/
def active_tick_phase (pos vel : Vec2) (sb : Scoreboard) (colliders : List Vec2)
    (t : Timer) : GameplayState :=
  let out := check_ball_collisions pos vel sb colliders
  if out.wallH.isSome then (switch_to_next_state GameplayState.Active out.scoreboard t).1
  else GameplayState.Active

/-- `fn reset_scoreboard` (runs `OnExit(GameplayState::GameOver)`). -/
def reset_scoreboard : Scoreboard := ⟨0, 0⟩

/-- The phase-and-scoreboard portion of the game state, for the reachability
argument about the score counters. -/
structure GState where
  phase : GameplayState
  sb : Scoreboard
deriving DecidableEq

/-- Tick-level transitions of the phase/score state, as wired in `fn main`:
input- and timer-driven advances from the non-`Active`, non-`GameOver`
phases; leaving `GameOver` resets the scoreboard; an `Active` tick updates
the scoreboard through `check_ball_collisions` and advances the phase
exactly when the wall test reported a horizontal outcome. -/
inductive Step : GState → GState → Prop where
  | advance (p : GameplayState) (sb : Scoreboard) (t : Timer)
      (hp : p = GameplayState.Startup ∨ p = GameplayState.Instructions ∨
            p = GameplayState.Start ∨ p = GameplayState.NextSet) :
      Step ⟨p, sb⟩ ⟨(switch_to_next_state p sb t).1, sb⟩
  | leaveGameOver (sb : Scoreboard) (t : Timer) :
      Step ⟨GameplayState.GameOver, sb⟩
           ⟨(switch_to_next_state GameplayState.GameOver sb t).1, reset_scoreboard⟩
  | activeNoWall (pos vel : Vec2) (cs : List Vec2) (sb : Scoreboard)
      (h : (check_ball_collisions pos vel sb cs).wallH = none) :
      Step ⟨GameplayState.Active, sb⟩
           ⟨GameplayState.Active, (check_ball_collisions pos vel sb cs).scoreboard⟩
  | activeWall (pos vel : Vec2) (cs : List Vec2) (sb : Scoreboard) (t : Timer)
      (h : (check_ball_collisions pos vel sb cs).wallH ≠ none) :
      Step ⟨GameplayState.Active, sb⟩
           ⟨(switch_to_next_state GameplayState.Active
               (check_ball_collisions pos vel sb cs).scoreboard t).1,
            (check_ball_collisions pos vel sb cs).scoreboard⟩

/-- The world as built in `fn main`: phase `Startup`, scoreboard zeroed. -/
def init_state : GState := ⟨GameplayState.Startup, ⟨0, 0⟩⟩

/-- States reachable from the initial world through tick-level transitions. -/
def Reachable (s : GState) : Prop := Relation.ReflTransGen Step init_state s

/-- Strengthened invariant for the score bound: outside `GameOver` both
counters are strictly below the threshold; everywhere they are at most the
threshold. -/
def SoftInv (s : GState) : Prop :=
  (s.phase ≠ GameplayState.GameOver →
    s.sb.score_left < WIN_CONDITIONS ∧ s.sb.score_right < WIN_CONDITIONS) ∧
  s.sb.score_left ≤ WIN_CONDITIONS ∧ s.sb.score_right ≤ WIN_CONDITIONS

/-- Claim C2 (amended): for every ball AABB overlapping a collider AABB, the
collider test returns a single-axis outcome determined by the offset of the
ball's center from the closest point on the collider: horizontal exactly when
`|offset.x|` strictly exceeds `|offset.y|` (so a tie goes to the vertical
branch, not the horizontal one), with `offset.x < 0` giving `HitRight` and
`offset.x > 0` giving `HitLeft` and no vertical outcome; otherwise
`offset.y > 0` gives `HitBottom`, else `HitTop`, with no horizontal outcome;
both axes are never reported for one collider test. -/
theorem collider_outcome_single_axis (ball collider : Aabb2d)
    (h : Aabb2d.intersects ball collider) :
    (|ball.center.x - (collider.closestPoint ball.center).x| >
        |ball.center.y - (collider.closestPoint ball.center).y| →
      (ball.center.x - (collider.closestPoint ball.center).x < 0 →
        collide_with_collider ball collider = (some CollisionH.Right, none)) ∧
      (0 < ball.center.x - (collider.closestPoint ball.center).x →
        collide_with_collider ball collider = (some CollisionH.Left, none))) ∧
    (|ball.center.x - (collider.closestPoint ball.center).x| ≤
        |ball.center.y - (collider.closestPoint ball.center).y| →
      (0 < ball.center.y - (collider.closestPoint ball.center).y →
        collide_with_collider ball collider = (none, some CollisionV.Bottom)) ∧
      (ball.center.y - (collider.closestPoint ball.center).y ≤ 0 →
        collide_with_collider ball collider = (none, some CollisionV.Top))) ∧
    ((collide_with_collider ball collider).1.isSome = true →
      (collide_with_collider ball collider).2 = none) ∧
    ((collide_with_collider ball collider).2.isSome = true →
      (collide_with_collider ball collider).1 = none) := by
  have hc : collide_with_collider ball collider =
      (if |ball.center.x - (collider.closestPoint ball.center).x| >
          |ball.center.y - (collider.closestPoint ball.center).y| then
        (if ball.center.x - (collider.closestPoint ball.center).x < 0 then
          ((some CollisionH.Right, none) : Option CollisionH × Option CollisionV)
        else (some CollisionH.Left, none))
      else if 0 < ball.center.y - (collider.closestPoint ball.center).y then
        (none, some CollisionV.Bottom)
      else (none, some CollisionV.Top)) := by
    unfold collide_with_collider
    rw [if_pos h]
  refine ⟨fun hd => ⟨fun hx => ?_, fun hx => ?_⟩,
          fun hd => ⟨fun hy => ?_, fun hy => ?_⟩, ?_, ?_⟩
  · rw [hc, if_pos hd, if_pos hx]
  · rw [hc, if_pos hd, if_neg (not_lt.mpr hx.le)]
  · rw [hc, if_neg (not_lt.mpr hd), if_pos hy]
  · rw [hc, if_neg (not_lt.mpr hd), if_neg (not_lt.mpr hy)]
  · by_cases hd : |ball.center.x - (collider.closestPoint ball.center).x| >
        |ball.center.y - (collider.closestPoint ball.center).y| <;>
      by_cases hx : ball.center.x - (collider.closestPoint ball.center).x < 0 <;>
      by_cases hy : 0 < ball.center.y - (collider.closestPoint ball.center).y <;>
      simp [hc, hd, hx, hy]
  · by_cases hd : |ball.center.x - (collider.closestPoint ball.center).x| >
        |ball.center.y - (collider.closestPoint ball.center).y| <;>
      by_cases hx : ball.center.x - (collider.closestPoint ball.center).x < 0 <;>
      by_cases hy : 0 < ball.center.y - (collider.closestPoint ball.center).y <;>
      simp [hc, hd, hx, hy]

/-- Witness for C2: a concrete overlapping pair whose offset is dominated by
the y axis yields a vertical-only `HitTop` outcome. -/
theorem collider_outcome_single_axis_witness :
    Aabb2d.intersects (Aabb2d.new ⟨0, 0⟩ ⟨5, 5⟩) (Aabb2d.new ⟨0, -40⟩ ⟨5, 45⟩) ∧
    collide_with_collider (Aabb2d.new ⟨0, 0⟩ ⟨5, 5⟩) (Aabb2d.new ⟨0, -40⟩ ⟨5, 45⟩) =
      (none, some CollisionV.Top) := by
  have h : Aabb2d.intersects (Aabb2d.new ⟨0, 0⟩ ⟨5, 5⟩) (Aabb2d.new ⟨0, -40⟩ ⟨5, 45⟩) := by
    norm_num [Aabb2d.intersects, Aabb2d.new]
  refine ⟨h, ?_⟩
  exact ((collider_outcome_single_axis _ _ h).2.1
      (by norm_num [Aabb2d.new, Aabb2d.center, Aabb2d.closestPoint, min_def, max_def])).2
    (by norm_num [Aabb2d.new, Aabb2d.center, Aabb2d.closestPoint, min_def, max_def])

/-- Counterexample for C2 as stated: an overlapping pair with
`|offset.x| = |offset.y| = 1` (a tie) produces a vertical outcome
(`HitBottom`) and no horizontal outcome, refuting "ties go to horizontal". -/
theorem collider_tie_counterexample :
    Aabb2d.intersects (ball_aabb ⟨306, 46⟩) (paddle_aabb ⟨300, 0⟩) ∧
    (ball_aabb ⟨306, 46⟩).center.x -
        ((paddle_aabb ⟨300, 0⟩).closestPoint (ball_aabb ⟨306, 46⟩).center).x = 1 ∧
    (ball_aabb ⟨306, 46⟩).center.y -
        ((paddle_aabb ⟨300, 0⟩).closestPoint (ball_aabb ⟨306, 46⟩).center).y = 1 ∧
    collide_with_collider (ball_aabb ⟨306, 46⟩) (paddle_aabb ⟨300, 0⟩) =
      (none, some CollisionV.Bottom) := by
  norm_num [collide_with_collider, ball_aabb, paddle_aabb, Aabb2d.new, Aabb2d.center,
    Aabb2d.closestPoint, Aabb2d.intersects, min_def, max_def, BALL_SIZE, PADDLE_SIZE]

/-- Claim C8: after the paddle-bounding step, the paddle's y position lies
within `[-(TOP_WALL - half_height), +(TOP_WALL - half_height)]`
(`PADDLE_BOUND = 189`), and whenever the bounding step changed the
y position, the paddle's y velocity is zero immediately after. -/
theorem bound_paddle_clamps (pos vel : Vec2) :
    -PADDLE_BOUND ≤ (bound_paddle pos vel).1.y ∧
    (bound_paddle pos vel).1.y ≤ PADDLE_BOUND ∧
    ((bound_paddle pos vel).1.y ≠ pos.y → (bound_paddle pos vel).2.y = 0) := by
  have hPB : (0:ℝ) ≤ PADDLE_BOUND := by
    norm_num [PADDLE_BOUND, TOP_WALL, FRAME_SIZE, WALL_THICKNESS, PADDLE_SIZE]
  have hlo : -PADDLE_BOUND ≤ Min.min PADDLE_BOUND (Max.max (-PADDLE_BOUND) pos.y) :=
    le_min (by linarith) (le_max_left _ _)
  have hhi : Min.min PADDLE_BOUND (Max.max (-PADDLE_BOUND) pos.y) ≤ PADDLE_BOUND :=
    min_le_left _ _
  unfold bound_paddle
  by_cases h : pos.y = Min.min PADDLE_BOUND (Max.max (-PADDLE_BOUND) pos.y)
  · rw [if_pos h]
    refine ⟨?_, ?_, fun hne => absurd rfl hne⟩
    · show -PADDLE_BOUND ≤ pos.y
      rw [h]; exact hlo
    · show pos.y ≤ PADDLE_BOUND
      rw [h]; exact hhi
  · rw [if_neg h]
    exact ⟨hlo, hhi, fun _ => rfl⟩

/-- Witness for C8: a paddle at `y = 300` is clamped (its new y differs from
300) and its y velocity is zeroed. -/
theorem bound_paddle_clamps_witness :
    (bound_paddle ⟨0, 300⟩ ⟨0, 50⟩).1.y ≠ (Vec2.mk 0 300).y ∧
    (bound_paddle ⟨0, 300⟩ ⟨0, 50⟩).2.y = 0 := by
  have hne : (bound_paddle ⟨0, 300⟩ ⟨0, 50⟩).1.y ≠ (Vec2.mk 0 300).y := by
    norm_num [bound_paddle, PADDLE_BOUND, TOP_WALL, FRAME_SIZE, WALL_THICKNESS,
      PADDLE_SIZE, min_def, max_def]
  exact ⟨hne, (bound_paddle_clamps ⟨0, 300⟩ ⟨0, 50⟩).2.2 hne⟩

/-- Claim C9: running the AI controller with `dt = 0` leaves the paddle's
velocity unchanged; the early return makes the division branch unreachable,
so no division by zero is evaluated. -/
theorem ai_control_zero_dt (ball_y paddle_y : ℝ) (vel : Vec2) :
    ai_control 0 ball_y paddle_y vel = vel := by
  unfold ai_control
  rw [if_pos rfl]


/-- Helper: the phase component of `switch_to_next_state` is `next_phase`;
the timer-arming match does not change the chosen phase. -/
theorem switch_to_next_state_fst (p : GameplayState) (sb : Scoreboard) (t : Timer) :
    (switch_to_next_state p sb t).1 = next_phase p sb := by
  unfold switch_to_next_state
  cases h : next_phase p sb <;> rfl

/-- Counterexample for C4 as stated: invoking the advance-phase operation
with current phase `NextSet` and a timer that has not yet elapsed
(elapsed 1/2 of duration 1) is not a no-op — it transitions to `Active`. -/
theorem advance_in_next_set_counterexample :
    (Timer.mk 1 (1/2) false).elapsed < (Timer.mk 1 (1/2) false).duration ∧
    (switch_to_next_state GameplayState.NextSet ⟨0, 0⟩ (Timer.mk 1 (1/2) false)).1 =
      GameplayState.Active ∧
    GameplayState.Active ≠ GameplayState.NextSet := by
  refine ⟨by norm_num, rfl, by decide⟩

/-- Claim C4 (amended): the timer gating lives in `tick_timer`, not in the
advance operation: a `NextSet` tick whose delta leaves the timer short of its
duration keeps the phase `NextSet`, and the `NextSet` to `Active` transition
happens exactly when the tick makes the timer just finish. -/
theorem next_set_advances_only_on_timer_edge (t : Timer) (delta : ℝ) (sb : Scoreboard) :
    (t.elapsed + delta < t.duration → (next_set_tick t delta sb).1 = GameplayState.NextSet) ∧
    ((tick_timer t delta).2 = true → (next_set_tick t delta sb).1 = GameplayState.Active) := by
  unfold next_set_tick tick_timer
  by_cases hf : t.finished
  · rw [if_pos hf]
    exact ⟨fun _ => rfl, fun hcontra => by simp at hcontra⟩
  · rw [if_neg hf]
    by_cases hd : t.duration ≤ t.elapsed + delta
    · rw [if_pos hd]
      exact ⟨fun hlt => absurd hd (not_le.mpr hlt), fun _ => rfl⟩
    · rw [if_neg hd]
      exact ⟨fun _ => rfl, fun hcontra => by simp at hcontra⟩

/-- Witness for C4: with duration 1, a tick of 1/2 from elapsed 0 stays in
`NextSet`; a tick of 1/2 from elapsed 3/4 just-finishes and advances to
`Active`. -/
theorem next_set_advances_only_on_timer_edge_witness :
    (Timer.mk 1 0 false).elapsed + 1/2 < (Timer.mk 1 0 false).duration ∧
    (next_set_tick (Timer.mk 1 0 false) (1/2) ⟨0, 0⟩).1 = GameplayState.NextSet ∧
    (tick_timer (Timer.mk 1 (3/4) false) (1/2)).2 = true ∧
    (next_set_tick (Timer.mk 1 (3/4) false) (1/2) ⟨0, 0⟩).1 = GameplayState.Active := by
  refine ⟨by norm_num, (next_set_advances_only_on_timer_edge _ _ _).1 (by norm_num), ?_, ?_⟩
  · norm_num [tick_timer]
  · exact (next_set_advances_only_on_timer_edge _ _ _).2 (by norm_num [tick_timer])

/-- Helper: the event count of `check_ball_collisions` is one exactly when
either merged axis carries an outcome. -/
theorem check_ball_collisions_eventCount (pos vel : Vec2) (sb : Scoreboard) (cs : List Vec2) :
    (check_ball_collisions pos vel sb cs).eventCount =
      if (check_ball_collisions pos vel sb cs).collisionH.isSome ||
         (check_ball_collisions pos vel sb cs).collisionV.isSome then 1 else 0 := rfl

/-- Claim C5 (amended): for every Active-phase tick, a collision-occurred
signal is emitted iff at least one axis carries a merged collision outcome —
whether or not any velocity component was actually reflected — and at most
one signal is emitted per tick even when both axes have outcomes. -/
theorem collision_event_iff_outcome (pos vel : Vec2) (sb : Scoreboard) (cs : List Vec2) :
    ((check_ball_collisions pos vel sb cs).eventCount = 1 ↔
      ((check_ball_collisions pos vel sb cs).collisionH.isSome = true ∨
       (check_ball_collisions pos vel sb cs).collisionV.isSome = true)) ∧
    (check_ball_collisions pos vel sb cs).eventCount ≤ 1 := by
  rw [check_ball_collisions_eventCount]
  cases hH : (check_ball_collisions pos vel sb cs).collisionH.isSome <;>
    cases hV : (check_ball_collisions pos vel sb cs).collisionV.isSome <;>
    simp [hH, hV]

/-- Counterexample for C5 as stated: a ball overlapping the bottom wall but
moving away (velocity `(0, 400)`) reflects no component — its velocity is
unchanged — yet the collision-occurred signal is still emitted. -/
theorem collision_event_without_reflection_counterexample :
    (check_ball_collisions ⟨0, -230⟩ ⟨0, 400⟩ ⟨0, 0⟩ [⟨300, 0⟩, ⟨-300, 0⟩]).eventCount = 1 ∧
    (check_ball_collisions ⟨0, -230⟩ ⟨0, 400⟩ ⟨0, 0⟩ [⟨300, 0⟩, ⟨-300, 0⟩]).velocity.x = 0 ∧
    (check_ball_collisions ⟨0, -230⟩ ⟨0, 400⟩ ⟨0, 0⟩ [⟨300, 0⟩, ⟨-300, 0⟩]).velocity.y = 400 := by
  norm_num [check_ball_collisions, collide_with_walls, collide_with_collider, ball_aabb,
    paddle_aabb, Aabb2d.new, Aabb2d.center, Aabb2d.halfSize, Aabb2d.closestPoint,
    Aabb2d.intersects, merge_collision, reflect_x, reflect_y, List.foldl, BALL_SIZE,
    PADDLE_SIZE, LEFT_WALL, RIGHT_WALL, TOP_WALL, BOTTOM_WALL, FRAME_SIZE, WALL_THICKNESS]

/-- Witness for C5: a ball bouncing off the top wall has a vertical outcome
and the signal is emitted. -/
theorem collision_event_iff_outcome_witness :
    (check_ball_collisions ⟨0, 230⟩ ⟨0, 400⟩ ⟨0, 0⟩ [⟨300, 0⟩, ⟨-300, 0⟩]).collisionV.isSome =
      true ∧
    (check_ball_collisions ⟨0, 230⟩ ⟨0, 400⟩ ⟨0, 0⟩ [⟨300, 0⟩, ⟨-300, 0⟩]).eventCount = 1 := by
  have hV : (check_ball_collisions ⟨0, 230⟩ ⟨0, 400⟩ ⟨0, 0⟩
      [⟨300, 0⟩, ⟨-300, 0⟩]).collisionV.isSome = true := by
    norm_num [check_ball_collisions, collide_with_walls, collide_with_collider, ball_aabb,
      paddle_aabb, Aabb2d.new, Aabb2d.center, Aabb2d.halfSize, Aabb2d.closestPoint,
      Aabb2d.intersects, merge_collision, List.foldl, BALL_SIZE, PADDLE_SIZE,
      LEFT_WALL, RIGHT_WALL, TOP_WALL, BOTTOM_WALL, FRAME_SIZE, WALL_THICKNESS]
  exact ⟨hV, (collision_event_iff_outcome _ _ _ _).1.mpr (Or.inr hV)⟩

/-- Helper: the scoreboard produced by `check_ball_collisions` is the wall
outcome processed through `process_scoreboard`, before any collider merge. -/
theorem check_ball_collisions_scoreboard (pos vel : Vec2) (sb : Scoreboard) (cs : List Vec2) :
    (check_ball_collisions pos vel sb cs).scoreboard =
      process_scoreboard (check_ball_collisions pos vel sb cs).wallH sb := rfl

/-- Claim C6: whenever the wall test reports a horizontal outcome, exactly
one scoreboard counter increments by exactly one, and it is the counter of
the side opposite the crossed wall; without a horizontal wall outcome the
counters are unchanged by the tick. -/
theorem wall_crossing_scores_opposite (pos vel : Vec2) (sb : Scoreboard) (cs : List Vec2) :
    ((check_ball_collisions pos vel sb cs).wallH = some CollisionH.Left →
      (check_ball_collisions pos vel sb cs).scoreboard =
        ⟨sb.score_left, sb.score_right + 1⟩) ∧
    ((check_ball_collisions pos vel sb cs).wallH = some CollisionH.Right →
      (check_ball_collisions pos vel sb cs).scoreboard =
        ⟨sb.score_left + 1, sb.score_right⟩) ∧
    ((check_ball_collisions pos vel sb cs).wallH = none →
      (check_ball_collisions pos vel sb cs).scoreboard = sb) := by
  refine ⟨fun h => ?_, fun h => ?_, fun h => ?_⟩ <;>
    rw [check_ball_collisions_scoreboard, h] <;> rfl

/-- Witness for C6 (the spec scenario): ball center `(-325, 0)` with
half-size `(5, 5)` crosses the left wall at `x = -320`, and the right counter
increments from 0 to 1. -/
theorem wall_crossing_scores_opposite_witness :
    (check_ball_collisions ⟨-325, 0⟩ ⟨-400, 0⟩ ⟨0, 0⟩ [⟨300, 0⟩, ⟨-300, 0⟩]).wallH =
      some CollisionH.Left ∧
    (check_ball_collisions ⟨-325, 0⟩ ⟨-400, 0⟩ ⟨0, 0⟩ [⟨300, 0⟩, ⟨-300, 0⟩]).scoreboard =
      ⟨0, 1⟩ := by
  have h : (check_ball_collisions ⟨-325, 0⟩ ⟨-400, 0⟩ ⟨0, 0⟩
      [⟨300, 0⟩, ⟨-300, 0⟩]).wallH = some CollisionH.Left := by
    norm_num [check_ball_collisions, collide_with_walls, collide_with_collider, ball_aabb,
      paddle_aabb, Aabb2d.new, Aabb2d.center, Aabb2d.halfSize, Aabb2d.closestPoint,
      Aabb2d.intersects, merge_collision, List.foldl, BALL_SIZE, PADDLE_SIZE,
      LEFT_WALL, RIGHT_WALL, TOP_WALL, BOTTOM_WALL, FRAME_SIZE, WALL_THICKNESS]
  exact ⟨h, (wall_crossing_scores_opposite _ _ _ _).1 h⟩

/-- Claim C7: when the ball crosses a vertical wall during `Active`, the
next phase is `GameOver` if either side's score after the increment reached
`WIN_CONDITIONS`, and `NextSet` otherwise. -/
theorem active_wall_crossing_next_phase (pos vel : Vec2) (sb : Scoreboard)
    (cs : List Vec2) (t : Timer)
    (h : (check_ball_collisions pos vel sb cs).wallH.isSome = true) :
    active_tick_phase pos vel sb cs t =
      (if WIN_CONDITIONS ≤ (check_ball_collisions pos vel sb cs).scoreboard.score_left ∨
          WIN_CONDITIONS ≤ (check_ball_collisions pos vel sb cs).scoreboard.score_right then
        GameplayState.GameOver
      else GameplayState.NextSet) := by
  unfold active_tick_phase
  rw [if_pos h, switch_to_next_state_fst]
  rfl

/-- Witness for C7 (the spec scenario): with the left counter at 2, a
crossing of the right wall brings it to the threshold 3 and the next phase is
`GameOver`, not `NextSet`. -/
theorem active_wall_crossing_next_phase_witness :
    (check_ball_collisions ⟨325, 0⟩ ⟨400, 0⟩ ⟨2, 0⟩ [⟨300, 0⟩, ⟨-300, 0⟩]).wallH.isSome =
      true ∧
    active_tick_phase ⟨325, 0⟩ ⟨400, 0⟩ ⟨2, 0⟩ [⟨300, 0⟩, ⟨-300, 0⟩] (Timer.mk 1 0 false) =
      GameplayState.GameOver := by
  have h : (check_ball_collisions ⟨325, 0⟩ ⟨400, 0⟩ ⟨2, 0⟩
      [⟨300, 0⟩, ⟨-300, 0⟩]).wallH.isSome = true := by
    norm_num [check_ball_collisions, collide_with_walls, collide_with_collider, ball_aabb,
      paddle_aabb, Aabb2d.new, Aabb2d.center, Aabb2d.halfSize, Aabb2d.closestPoint,
      Aabb2d.intersects, merge_collision, List.foldl, BALL_SIZE, PADDLE_SIZE,
      LEFT_WALL, RIGHT_WALL, TOP_WALL, BOTTOM_WALL, FRAME_SIZE, WALL_THICKNESS]
  refine ⟨h, ?_⟩
  rw [active_wall_crossing_next_phase _ _ _ _ _ h]
  norm_num [check_ball_collisions, collide_with_walls, process_scoreboard, ball_aabb,
    Aabb2d.new, Aabb2d.center, Aabb2d.halfSize, BALL_SIZE, LEFT_WALL, RIGHT_WALL,
    TOP_WALL, BOTTOM_WALL, FRAME_SIZE, WALL_THICKNESS, WIN_CONDITIONS]


/-- Helper: squared lengths are non-negative. -/
theorem Vec2.lengthSq_nonneg (v : Vec2) : 0 ≤ v.lengthSq :=
  add_nonneg (mul_self_nonneg _) (mul_self_nonneg _)

/-- Helper: clamping a non-zero vector to a minimum length `m ≥ 0` yields a
vector of length at least `m`. -/
theorem clamp_length_min_length (v : Vec2) (m : ℝ) (hv : v.lengthSq ≠ 0) (hm : 0 ≤ m) :
    m ≤ (Vec2.clamp_length_min v m).length := by
  have hL : 0 ≤ v.lengthSq := v.lengthSq_nonneg
  have hLpos : 0 < v.lengthSq := lt_of_le_of_ne hL (Ne.symm hv)
  unfold Vec2.clamp_length_min
  by_cases h : v.lengthSq < m * m
  · rw [if_pos h]
    have hs : 0 < Real.sqrt v.lengthSq := Real.sqrt_pos.mpr hLpos
    have hsne : Real.sqrt v.lengthSq ≠ 0 := ne_of_gt hs
    have hss : Real.sqrt v.lengthSq * Real.sqrt v.lengthSq = v.lengthSq :=
      Real.mul_self_sqrt hL
    have hLsq : (Vec2.mk (m * (v.x / Real.sqrt v.lengthSq))
        (m * (v.y / Real.sqrt v.lengthSq))).lengthSq = m * m := by
      show m * (v.x / Real.sqrt v.lengthSq) * (m * (v.x / Real.sqrt v.lengthSq)) +
          m * (v.y / Real.sqrt v.lengthSq) * (m * (v.y / Real.sqrt v.lengthSq)) = m * m
      field_simp
      simp only [Vec2.lengthSq]
      ring
    rw [Vec2.length, hLsq, Real.sqrt_mul_self hm]
  · rw [if_neg h]
    push_neg at h
    calc m = Real.sqrt (m * m) := (Real.sqrt_mul_self hm).symm
      _ ≤ Real.sqrt v.lengthSq := Real.sqrt_le_sqrt h
      _ = v.length := rfl

/-- Claim C1 (amended): on every Active-phase tick, `on_collision_actions`
raises the ball's max speed by `BALL_DELTA_SPEED` and re-clamps the velocity
to a minimum (not a maximum) of the new max speed exactly when the tick
emitted a collision-occurred signal — the event carries no origin, so a
signal from a wall bounce triggers the same escalation as one from a paddle;
with no signal, velocity and max speed are unchanged. -/
theorem escalation_on_any_collision_event (pos vel : Vec2) (sb : Scoreboard)
    (cs : List Vec2) (ms : ℝ) :
    ((check_ball_collisions pos vel sb cs).eventCount ≠ 0 →
      on_collision_actions (check_ball_collisions pos vel sb cs).eventCount
          (check_ball_collisions pos vel sb cs).velocity ms =
        (Vec2.clamp_length_min (check_ball_collisions pos vel sb cs).velocity
            (ms + BALL_DELTA_SPEED),
         ms + BALL_DELTA_SPEED)) ∧
    ((check_ball_collisions pos vel sb cs).eventCount = 0 →
      on_collision_actions (check_ball_collisions pos vel sb cs).eventCount
          (check_ball_collisions pos vel sb cs).velocity ms =
        ((check_ball_collisions pos vel sb cs).velocity, ms)) ∧
    ((check_ball_collisions pos vel sb cs).eventCount ≠ 0 →
      (check_ball_collisions pos vel sb cs).velocity.lengthSq ≠ 0 → 0 ≤ ms →
      ms + BALL_DELTA_SPEED ≤
        (on_collision_actions (check_ball_collisions pos vel sb cs).eventCount
            (check_ball_collisions pos vel sb cs).velocity ms).1.length) := by
  refine ⟨fun h => ?_, fun h => ?_, fun h hv hm => ?_⟩
  · unfold on_collision_actions
    rw [if_neg h]
  · unfold on_collision_actions
    rw [if_pos h]
  · unfold on_collision_actions
    rw [if_neg h]
    exact clamp_length_min_length _ _ hv
      (by simp only [BALL_DELTA_SPEED]; linarith)

/-- Counterexample for C1 as stated: a tick whose signal originates only
from the bottom wall (both paddle collider tests return no collision, the
wall vertical outcome is `Bottom`) still raises the max speed from 400 to
410, refuting "a wall-only signal causes no max-speed change". -/
theorem escalation_from_wall_only_counterexample :
    collide_with_collider (ball_aabb ⟨0, -230⟩) (paddle_aabb ⟨300, 0⟩) = (none, none) ∧
    collide_with_collider (ball_aabb ⟨0, -230⟩) (paddle_aabb ⟨-300, 0⟩) = (none, none) ∧
    (check_ball_collisions ⟨0, -230⟩ ⟨0, -400⟩ ⟨0, 0⟩ [⟨300, 0⟩, ⟨-300, 0⟩]).collisionV =
      some CollisionV.Bottom ∧
    (check_ball_collisions ⟨0, -230⟩ ⟨0, -400⟩ ⟨0, 0⟩ [⟨300, 0⟩, ⟨-300, 0⟩]).wallH = none ∧
    (active_collision_tick ⟨0, -230⟩ ⟨0, -400⟩ 400 ⟨0, 0⟩ [⟨300, 0⟩, ⟨-300, 0⟩]).2.1 = 410 ∧
    (410:ℝ) ≠ 400 := by
  norm_num [active_collision_tick, on_collision_actions, check_ball_collisions,
    collide_with_walls, collide_with_collider, ball_aabb, paddle_aabb, Aabb2d.new,
    Aabb2d.center, Aabb2d.halfSize, Aabb2d.closestPoint, Aabb2d.intersects,
    merge_collision, List.foldl, BALL_SIZE, PADDLE_SIZE, LEFT_WALL, RIGHT_WALL,
    TOP_WALL, BOTTOM_WALL, FRAME_SIZE, WALL_THICKNESS, BALL_DELTA_SPEED]

/-- Witness for C1: a top-wall bounce at max speed 400 yields a tick with a
signal, a non-zero reflected velocity, and a resulting speed of at least
`400 + BALL_DELTA_SPEED`. -/
theorem escalation_on_any_collision_event_witness :
    (check_ball_collisions ⟨0, 230⟩ ⟨0, 400⟩ ⟨0, 0⟩ [⟨300, 0⟩, ⟨-300, 0⟩]).eventCount ≠ 0 ∧
    (check_ball_collisions ⟨0, 230⟩ ⟨0, 400⟩ ⟨0, 0⟩
        [⟨300, 0⟩, ⟨-300, 0⟩]).velocity.lengthSq ≠ 0 ∧
    400 + BALL_DELTA_SPEED ≤
      (on_collision_actions
          (check_ball_collisions ⟨0, 230⟩ ⟨0, 400⟩ ⟨0, 0⟩ [⟨300, 0⟩, ⟨-300, 0⟩]).eventCount
          (check_ball_collisions ⟨0, 230⟩ ⟨0, 400⟩ ⟨0, 0⟩ [⟨300, 0⟩, ⟨-300, 0⟩]).velocity
          400).1.length := by
  have h1 : (check_ball_collisions ⟨0, 230⟩ ⟨0, 400⟩ ⟨0, 0⟩
      [⟨300, 0⟩, ⟨-300, 0⟩]).eventCount ≠ 0 := by
    norm_num [check_ball_collisions, collide_with_walls, collide_with_collider, ball_aabb,
      paddle_aabb, Aabb2d.new, Aabb2d.center, Aabb2d.halfSize, Aabb2d.closestPoint,
      Aabb2d.intersects, merge_collision, List.foldl, BALL_SIZE, PADDLE_SIZE,
      LEFT_WALL, RIGHT_WALL, TOP_WALL, BOTTOM_WALL, FRAME_SIZE, WALL_THICKNESS]
  have h2 : (check_ball_collisions ⟨0, 230⟩ ⟨0, 400⟩ ⟨0, 0⟩
      [⟨300, 0⟩, ⟨-300, 0⟩]).velocity.lengthSq ≠ 0 := by
    norm_num [check_ball_collisions, collide_with_walls, collide_with_collider, ball_aabb,
      paddle_aabb, Aabb2d.new, Aabb2d.center, Aabb2d.halfSize, Aabb2d.closestPoint,
      Aabb2d.intersects, merge_collision, reflect_x, reflect_y, List.foldl, Vec2.lengthSq,
      BALL_SIZE, PADDLE_SIZE, LEFT_WALL, RIGHT_WALL, TOP_WALL, BOTTOM_WALL, FRAME_SIZE,
      WALL_THICKNESS]
  exact ⟨h1, h2,
    (escalation_on_any_collision_event ⟨0, 230⟩ ⟨0, 400⟩ ⟨0, 0⟩ [⟨300, 0⟩, ⟨-300, 0⟩]
        400).2.2 h1 h2 (by norm_num)⟩

/-- Counterexample for C3 as stated: with `dt = 1/10` and a gap of 100 the
controller requests velocity 1000, `limit_velocity` clamps it to the AI max
speed 500, and after integration the paddle is at `y = 50`, not at the
ball's `y = 100` — the gap is not closed in a single tick. -/
theorem ai_tracking_counterexample :
    (0:ℝ) < 1/10 ∧
    (ai_paddle_tick (1/10) 100 ⟨-300, 0⟩ ⟨0, 0⟩ AI_STARTING_MAX_SPEED).1.y = 50 ∧
    (50:ℝ) ≠ 100 := by
  have hsqrt : Real.sqrt 1000000 = 1000 := by
    rw [show (1000000:ℝ) = 1000 * 1000 by norm_num]
    exact Real.sqrt_mul_self (by norm_num)
  norm_num [ai_paddle_tick, ai_control, limit_velocity, Vec2.clamp_length_max,
    Vec2.lengthSq, apply_velocity, AI_STARTING_MAX_SPEED, hsqrt]

/-- Claim C3 (amended): for every tick with `dt > 0` the AI controller sets
the paddle's y velocity to `(ball.y - paddle.y) / dt`; the paddle reaches the
ball's y position after that tick's integration provided the required speed
does not exceed the paddle's max speed, i.e. `|ball.y - paddle.y| ≤ ms * dt`
(with the paddle's x velocity zero, as maintained by the game). -/
theorem ai_tracking_within_cap (dt ball_y : ℝ) (pos vel : Vec2) (ms : ℝ)
    (hdt : 0 < dt) (hx : vel.x = 0) (hms : 0 ≤ ms)
    (hgap : |ball_y - pos.y| ≤ ms * dt) :
    (ai_control dt ball_y pos.y vel).y = (ball_y - pos.y) / dt ∧
    (ai_paddle_tick dt ball_y pos vel ms).1.y = ball_y := by
  have hdt' : dt ≠ 0 := ne_of_gt hdt
  have hctrl : ai_control dt ball_y pos.y vel = ⟨vel.x, (ball_y - pos.y) / dt⟩ := by
    unfold ai_control
    rw [if_neg hdt']
  refine ⟨by rw [hctrl], ?_⟩
  unfold ai_paddle_tick
  rw [hctrl, hx]
  have hbound : ((ball_y - pos.y) / dt) * ((ball_y - pos.y) / dt) ≤ ms * ms := by
    have h1 : |(ball_y - pos.y) / dt| ≤ ms := by
      rw [abs_div, abs_of_pos hdt, div_le_iff₀ hdt]
      exact hgap
    calc ((ball_y - pos.y) / dt) * ((ball_y - pos.y) / dt)
        = |(ball_y - pos.y) / dt| * |(ball_y - pos.y) / dt| := (abs_mul_abs_self _).symm
      _ ≤ ms * ms := mul_le_mul h1 h1 (abs_nonneg _) hms
  have hLsq : Vec2.lengthSq ⟨0, (ball_y - pos.y) / dt⟩ =
      ((ball_y - pos.y) / dt) * ((ball_y - pos.y) / dt) := by
    show 0 * 0 + (ball_y - pos.y) / dt * ((ball_y - pos.y) / dt) =
      (ball_y - pos.y) / dt * ((ball_y - pos.y) / dt)
    ring
  have hclamp : limit_velocity ⟨0, (ball_y - pos.y) / dt⟩ ms =
      ⟨0, (ball_y - pos.y) / dt⟩ := by
    unfold limit_velocity Vec2.clamp_length_max
    rw [if_neg (by rw [hLsq]; exact not_lt.mpr hbound)]
  show (apply_velocity pos (limit_velocity ⟨0, (ball_y - pos.y) / dt⟩ ms) dt).y = ball_y
  rw [hclamp]
  show pos.y + (ball_y - pos.y) / dt * dt = ball_y
  rw [div_mul_cancel₀ _ hdt']
  ring

/-- Witness for C3: with `dt = 1`, a gap of 100 and max speed 500, the
paddle lands exactly on the ball's y position. -/
theorem ai_tracking_within_cap_witness :
    (0:ℝ) < 1 ∧ (Vec2.mk 0 0).x = 0 ∧ (0:ℝ) ≤ 500 ∧
    |(100:ℝ) - (Vec2.mk (-300) 0).y| ≤ 500 * 1 ∧
    (ai_paddle_tick 1 100 ⟨-300, 0⟩ ⟨0, 0⟩ 500).1.y = 100 := by
  refine ⟨by norm_num, rfl, by norm_num, by norm_num, ?_⟩
  exact (ai_tracking_within_cap 1 100 ⟨-300, 0⟩ ⟨0, 0⟩ 500 (by norm_num) rfl
    (by norm_num) (by norm_num)).2


/-- Helper: every tick-level transition preserves the strengthened score
invariant. -/
theorem step_preserves_soft_inv (s1 s2 : GState) (hinv : SoftInv s1) (st : Step s1 s2) :
    SoftInv s2 := by
  cases st with
  | advance p sb t hp =>
    have hne : p ≠ GameplayState.GameOver := by
      rcases hp with h | h | h | h <;> subst h <;> decide
    have hlt := hinv.1 hne
    exact ⟨fun _ => hlt, hlt.1.le, hlt.2.le⟩
  | leaveGameOver sb t =>
    refine ⟨fun _ => ?_, ?_, ?_⟩
    · show reset_scoreboard.score_left < WIN_CONDITIONS ∧
        reset_scoreboard.score_right < WIN_CONDITIONS
      decide
    · show reset_scoreboard.score_left ≤ WIN_CONDITIONS
      decide
    · show reset_scoreboard.score_right ≤ WIN_CONDITIONS
      decide
  | activeNoWall pos vel cs sb h =>
    have hsb : (check_ball_collisions pos vel sb cs).scoreboard = sb := by
      rw [check_ball_collisions_scoreboard, h]
      rfl
    have hActive : GameplayState.Active ≠ GameplayState.GameOver := by decide
    have hlt := hinv.1 hActive
    unfold SoftInv
    dsimp only
    rw [hsb]
    exact ⟨fun _ => hlt, hlt.1.le, hlt.2.le⟩
  | activeWall pos vel cs sb t h =>
    have hActive : GameplayState.Active ≠ GameplayState.GameOver := by decide
    have hlt := hinv.1 hActive
    obtain ⟨c, hc⟩ := Option.ne_none_iff_exists'.mp h
    have hsb := check_ball_collisions_scoreboard pos vel sb cs
    rw [hc] at hsb
    have hfst : (switch_to_next_state GameplayState.Active
        (check_ball_collisions pos vel sb cs).scoreboard t).1 =
        check_win_conditions (check_ball_collisions pos vel sb cs).scoreboard :=
      switch_to_next_state_fst _ _ _
    unfold SoftInv
    dsimp only
    rw [hfst, hsb]
    cases c with
    | Left =>
      simp only [process_scoreboard]
      unfold check_win_conditions
      by_cases hw : WIN_CONDITIONS ≤ sb.score_left ∨ WIN_CONDITIONS ≤ sb.score_right + 1
      · rw [if_pos hw]
        exact ⟨fun hne => absurd rfl hne, hlt.1.le, hlt.2⟩
      · rw [if_neg hw]
        push_neg at hw
        exact ⟨fun _ => ⟨hw.1, hw.2⟩, hw.1.le, hw.2.le⟩
    | Right =>
      simp only [process_scoreboard]
      unfold check_win_conditions
      by_cases hw : WIN_CONDITIONS ≤ sb.score_left + 1 ∨ WIN_CONDITIONS ≤ sb.score_right
      · rw [if_pos hw]
        exact ⟨fun hne => absurd rfl hne, hlt.1, hlt.2.le⟩
      · rw [if_neg hw]
        push_neg at hw
        exact ⟨fun _ => ⟨hw.1, hw.2⟩, hw.1.le, hw.2.le⟩

/-- Claim C10: in every reachable state of the game, each scoreboard
counter is at most `WIN_CONDITIONS` (3): counters change only by the
wall-crossing increment during `Active`, the incrementing tick immediately
advances the phase (to `GameOver` when the threshold is reached), and both
counters reset to zero on leaving `GameOver`. -/
theorem scoreboard_bounded_reachable (s : GState) (h : Reachable s) :
    s.sb.score_left ≤ WIN_CONDITIONS ∧ s.sb.score_right ≤ WIN_CONDITIONS := by
  have hinv : SoftInv s := by
    unfold Reachable at h
    induction h with
    | refl => exact ⟨fun _ => by decide, by decide, by decide⟩
    | tail hr st ih => exact step_preserves_soft_inv _ _ ih st
  exact hinv.2

/-- Witness for C10: the initial state is reachable and its counters are
within the bound. -/
theorem scoreboard_bounded_reachable_witness :
    Reachable init_state ∧
    init_state.sb.score_left ≤ WIN_CONDITIONS ∧
    init_state.sb.score_right ≤ WIN_CONDITIONS := by
  have h : Reachable init_state := Relation.ReflTransGen.refl
  exact ⟨h, scoreboard_bounded_reachable init_state h⟩

end

end Pong
